import Mathlib

/-!
Verification of the Tesla car controller (`opendbc/car/tesla/carcontroller.py`):
the steering-angle limiter, the driver-torque override filter, the frame-scheduled
command emission, and the longitudinal command arbitration.

Real-valued quantities are embedded as rationals; the external vehicle curvature
model (curvature → steering angle, in degrees) is kept abstract as a function
parameter, mirroring the `VM` parameter of the Python code.
-/

namespace TeslaCC

/-- Modelled from the spec: the external Vehicle Curvature Model, a pure function
`steerFromCurvature(curvature, speed, roll) → angle`; bundled together with the
degrees conversion (`math.degrees`) applied at every call site of the source. -/
structure VehicleModel where
  getSteerFromCurvatureDeg : ℚ → ℚ → ℚ → ℚ

/-- Configured angle limits (`AngleSteeringLimits`); only the absolute maximum
angle field is consulted by this controller. -/
structure AngleSteeringLimits where
  STEER_ANGLE_MAX : ℚ

/-- Modelled from the spec: `np.clip(x, lo, hi)` — scalar clamp, the
"vectorized-array clamp" of the source specialised to scalars. -/
def clip (x lo hi : ℚ) : ℚ := min (max x lo) hi

/-- Modelled from the spec: `opendbc.car.rate_limit(new, last, dn, up)`,
the symmetric rate limiter "relative to `previousAngle`". -/
def rate_limit (new_value last_value dn_step up_step : ℚ) : ℚ :=
  clip new_value (last_value + dn_step) (last_value + up_step)

/-- Modelled from the spec: `np.sign` — sign of a scalar. -/
def sign (x : ℚ) : ℚ := if 0 < x then 1 else if x < 0 then -1 else 0

/-- `MAX_ANGLE_RATE = 10` deg per 20ms frame, the hard fault-avoidance ceiling. -/
def MAX_ANGLE_RATE : ℚ := 10

/-- Modelled from the spec: the ISO lateral-acceleration bound (`ISO_LATERAL_ACCEL`
from `opendbc.car.interfaces`, 3.0 m/s²). -/
def ISO_LATERAL_ACCEL : ℚ := 3

/-- Modelled from the spec: standard gravity constant from `opendbc.car`. -/
def ACCELERATION_DUE_TO_GRAVITY : ℚ := 9.81

/-- `AVERAGE_ROAD_ROLL = 0.06`, 6% superelevation tolerance. -/
def AVERAGE_ROAD_ROLL : ℚ := 0.06

/-- `MAX_LATERAL_ACCEL ≈ 3.6 m/s²`: ISO bound plus banked-road margin. -/
def MAX_LATERAL_ACCEL : ℚ := ISO_LATERAL_ACCEL + ACCELERATION_DUE_TO_GRAVITY * AVERAGE_ROAD_ROLL

/-- `MAX_LATERAL_JERK ≈ 3.6 m/s³`: jerk bound plus banked-road margin. -/
def MAX_LATERAL_JERK : ℚ := 3 + ACCELERATION_DUE_TO_GRAVITY * AVERAGE_ROAD_ROLL

/-- Modelled from the spec: `DT_CTRL`, the 100 Hz control cycle period. -/
def DT_CTRL : ℚ := 1/100

/-- Modelled from the spec: `CarControllerParams.STEER_STEP` — the steering
command sub-rate, "every 2 frames". -/
def STEER_STEP : ℚ := 2

/-- `get_max_angle_delta`: per-cycle angle delta from the lateral-jerk bound. -/
def get_max_angle_delta (v_ego_raw : ℚ) (VM : VehicleModel) : ℚ :=
  let max_curvature_rate_sec := MAX_LATERAL_JERK / (max v_ego_raw 1) ^ 2
  let max_angle_rate_sec := VM.getSteerFromCurvatureDeg max_curvature_rate_sec v_ego_raw 0
  max_angle_rate_sec * (DT_CTRL * STEER_STEP)

/-- `get_max_angle`: absolute angle bound from the lateral-acceleration bound. -/
def get_max_angle (v_ego_raw : ℚ) (VM : VehicleModel) : ℚ :=
  let max_curvature := MAX_LATERAL_ACCEL / (max v_ego_raw 1) ^ 2
  VM.getSteerFromCurvatureDeg max_curvature v_ego_raw 0

/-- `apply_tesla_steer_angle_limits`: jerk rate limit, lateral-accel clamp,
inactive override with the measured angle, final hard clamp. -/
def apply_tesla_steer_angle_limits (apply_angle apply_angle_last v_ego_raw steering_angle : ℚ)
    (lat_active : Bool) (limits : AngleSteeringLimits) (VM : VehicleModel) : ℚ :=
  let max_angle_delta := min (get_max_angle_delta v_ego_raw VM) MAX_ANGLE_RATE
  let new_apply_angle := rate_limit apply_angle apply_angle_last (-max_angle_delta) max_angle_delta
  let max_angle := get_max_angle v_ego_raw VM
  let new_apply_angle := clip new_apply_angle (-max_angle) max_angle
  let new_apply_angle := if lat_active then new_apply_angle else steering_angle
  clip new_apply_angle (-limits.STEER_ANGLE_MAX) limits.STEER_ANGLE_MAX

/-- Actuator request fields consumed or echoed by this controller. -/
structure Actuators where
  steeringAngleDeg : ℚ
  accel : ℚ
deriving DecidableEq

/-- `CC.cruiseControl` fields consumed here. -/
structure CruiseControl where
  cancel : Bool
deriving DecidableEq

/-- The per-tick car-control input `CC`. -/
structure CarControl where
  actuators : Actuators
  latActive : Bool
  longActive : Bool
  cruiseControl : CruiseControl
deriving DecidableEq

/-- `CS.out` vehicle observation fields consumed here. -/
structure CarStateOut where
  vEgoRaw : ℚ
  vEgo : ℚ
  steeringAngleDeg : ℚ
  steeringTorque : ℚ
deriving DecidableEq

/-- The per-tick car-state input `CS`; `das_control_counter` embeds the observed
`CS.das_control["DAS_controlCounter"]` signal. -/
structure CarState where
  out : CarStateOut
  hands_on_level : ℕ
  das_control_counter : ℕ
deriving DecidableEq

/-- Outbound command values, one constructor per `TeslaCAN.create_*` encoder; the
encoders are opaque to this core, so a command is its kind plus payload fields. -/
inductive CanMsg where
  | steeringControl (angle : ℚ) (latActive : Bool)
  | steeringAllowed
  | longitudinalCommand (state : ℕ) (accel : ℚ) (cntr : ℕ) (vEgo : ℚ) (longActive : Bool)
deriving DecidableEq

def isSteeringMsg : CanMsg → Bool
  | .steeringControl _ _ => true
  | _ => false

def isAllowedMsg : CanMsg → Bool
  | .steeringAllowed => true
  | _ => false

def isLongMsg : CanMsg → Bool
  | .longitudinalCommand _ _ _ _ _ => true
  | _ => false

/-- Mutable controller state: `apply_angle_last`, `angle_modifier`, the
first-order filter internal value, and the frame counter. -/
structure CarControllerState where
  apply_angle_last : ℚ
  angle_modifier : ℚ
  driver_torque_x : ℚ
  frame : ℕ
deriving DecidableEq

/-- Static configuration: longitudinal ownership flag, the vehicle model, and the
`CarControllerParams` limits referenced by `update`. -/
structure CarControllerConfig where
  openpilotLongitudinalControl : Bool
  VM : VehicleModel
  ANGLE_LIMITS : AngleSteeringLimits
  ACCEL_MIN : ℚ
  ACCEL_MAX : ℚ

/-- Initial controller state set by `__init__`: zero applied angle, zero
modifier, zeroed filter, frame counter 0. -/
def initState : CarControllerState :=
  { apply_angle_last := 0, angle_modifier := 0, driver_torque_x := 0, frame := 0 }

/-- Modelled from the spec: the first-order low-pass filter step of
`FirstOrderFilter(0.0, 0.003, DT_CTRL)` — `x ← (1-α)·x + α·input` with
`α = DT_CTRL/(rc + DT_CTRL)`, `rc = 0.003`. -/
def firstOrderFilterUpdate (x input : ℚ) : ℚ :=
  let alpha : ℚ := DT_CTRL / (3/1000 + DT_CTRL)
  (1 - alpha) * x + alpha * input

/-- The deadband stage on raw driver steering torque: magnitude below 0.5 is
zeroed; above, 0.5 is subtracted sign-preservingly. -/
def driver_torque_deadband (t : ℚ) : ℚ :=
  if 1/2 ≤ |t| then t - (1/2) * sign t else 0

/-- The full filtered driver-torque pipeline of one tick: deadband, clamp to
`[-3, 3]`, then the first-order filter step. -/
def filtered_driver_torque (xprev t : ℚ) : ℚ :=
  firstOrderFilterUpdate xprev (clip (driver_torque_deadband t) (-3) 3)

/-- Torque-to-angle conversion inside the `CC.latActive` branch: filtered torque
treated as lateral acceleration, converted to curvature with a 20 m/s speed
floor, mapped to degrees through the vehicle model. -/
def angle_from_driver_torque (VM : VehicleModel) (driver_torque v_ego_raw : ℚ) : ℚ :=
  let curvature_from_torque := driver_torque / (max v_ego_raw 20) ^ 2
  VM.getSteerFromCurvatureDeg curvature_from_torque (max v_ego_raw 20) 0

/-- `CarController.update`: one control tick. Returns the actuator echo, the
ordered outbound command list, and the successor controller state. The
`now_nanos` argument is accepted and, as in the source, never read. -/
def update (cfg : CarControllerConfig) (st : CarControllerState) (CC : CarControl)
    (CS : CarState) (now_nanos : ℕ) : (Actuators × List CanMsg) × CarControllerState :=
  let actuators := CC.actuators
  let lat_active : Bool := CC.latActive && decide (CS.hands_on_level < 3)
  let driver_torque := filtered_driver_torque st.driver_torque_x CS.out.steeringTorque
  let angle_modifier : ℚ :=
    if st.frame % 2 = 0 then
      if CC.latActive then
        clip (angle_from_driver_torque cfg.VM driver_torque CS.out.vEgoRaw)
          (st.angle_modifier - 5) (st.angle_modifier + 5)
      else 0
    else st.angle_modifier
  let apply_angle_last : ℚ :=
    if st.frame % 2 = 0 then
      apply_tesla_steer_angle_limits (actuators.steeringAngleDeg + angle_modifier)
        st.apply_angle_last CS.out.vEgoRaw CS.out.steeringAngleDeg lat_active
        cfg.ANGLE_LIMITS cfg.VM
    else st.apply_angle_last
  let steer_sends : List CanMsg :=
    if st.frame % 2 = 0 then [.steeringControl apply_angle_last lat_active] else []
  let allowed_sends : List CanMsg :=
    if st.frame % 10 = 0 then [.steeringAllowed] else []
  let long_sends : List CanMsg :=
    if cfg.openpilotLongitudinalControl then
      if st.frame % 4 = 0 then
        [.longitudinalCommand (if CC.cruiseControl.cancel then 13 else 4)
          (clip actuators.accel cfg.ACCEL_MIN cfg.ACCEL_MAX)
          ((st.frame / 4) % 8) CS.out.vEgo CC.longActive]
      else []
    else
      if CC.cruiseControl.cancel then
        [.longitudinalCommand 13 0 ((CS.das_control_counter + 1) % 8) CS.out.vEgo false]
      else []
  let new_actuators : Actuators :=
    { steeringAngleDeg := apply_angle_last, accel := actuators.accel }
  ((new_actuators, steer_sends ++ allowed_sends ++ long_sends),
   { apply_angle_last := apply_angle_last, angle_modifier := angle_modifier,
     driver_torque_x := driver_torque, frame := st.frame + 1 })

/-- A run of the controller: fold `update` over a list of per-tick inputs. -/
def run (cfg : CarControllerConfig) (st : CarControllerState) :
    List (CarControl × CarState) → CarControllerState
  | [] => st
  | (cc, cs) :: rest => run cfg (update cfg st cc cs 0).2 rest

/-- A concrete linear vehicle model used for witnesses, mapping curvature to
1000·curvature degrees. -/
def exVM : VehicleModel := ⟨fun c _ _ => 1000 * c⟩

/-- A concrete configuration used for witnesses, with the production values
`STEER_ANGLE_MAX = 360`, `ACCEL_MIN = -3.48`, `ACCEL_MAX = 2.0`. -/
def exCfg : CarControllerConfig :=
  { openpilotLongitudinalControl := true, VM := exVM,
    ANGLE_LIMITS := ⟨360⟩, ACCEL_MIN := -3.48, ACCEL_MAX := 2 }

/-- A concrete car-control input used for witnesses. -/
def exCC : CarControl :=
  { actuators := { steeringAngleDeg := 10, accel := 1 }, latActive := true,
    longActive := true, cruiseControl := { cancel := false } }

/-- A concrete car-state input used for witnesses. -/
def exCS : CarState :=
  { out := { vEgoRaw := 20, vEgo := 20, steeringAngleDeg := 3, steeringTorque := 1 },
    hands_on_level := 0, das_control_counter := 6 }

/-- A concrete high-gain vehicle model (10⁶ deg per unit curvature) used to
drive `angle_modifier` quickly in counterexample runs. -/
def exVM2 : VehicleModel := ⟨fun c _ _ => 1000000 * c⟩

/-- A concrete owned-longitudinal configuration with the high-gain model. -/
def exCfg2 : CarControllerConfig :=
  { openpilotLongitudinalControl := true, VM := exVM2, ANGLE_LIMITS := ⟨360⟩,
    ACCEL_MIN := -3.48, ACCEL_MAX := 2 }

/-- A concrete unowned-longitudinal configuration. -/
def exCfgU : CarControllerConfig :=
  { openpilotLongitudinalControl := false, VM := exVM, ANGLE_LIMITS := ⟨360⟩,
    ACCEL_MIN := -3.48, ACCEL_MAX := 2 }

/-- Car-control input with lateral control requested and nothing else. -/
def exCCon : CarControl :=
  { actuators := ⟨0, 0⟩, latActive := true, longActive := false, cruiseControl := ⟨false⟩ }

/-- Car-control input with lateral control not requested. -/
def exCCoff : CarControl :=
  { actuators := ⟨0, 0⟩, latActive := false, longActive := false, cruiseControl := ⟨false⟩ }

/-- Car-control input with a pending cancel request. -/
def exCCcancel : CarControl :=
  { actuators := ⟨0, 0⟩, latActive := false, longActive := false, cruiseControl := ⟨true⟩ }

/-- Car-control input requesting acceleration 5 with longitudinal active. -/
def exCCaccel : CarControl :=
  { actuators := ⟨0, 5⟩, latActive := false, longActive := true, cruiseControl := ⟨false⟩ }

/-- Car-state input with strong driver steering torque (3.5) at standstill. -/
def exCStorque : CarState :=
  { out := { vEgoRaw := 0, vEgo := 0, steeringAngleDeg := 0, steeringTorque := 7/2 },
    hands_on_level := 0, das_control_counter := 0 }

/-- Car-state input with a hands-on-level classification of 3. -/
def exCShands : CarState :=
  { out := { vEgoRaw := 20, vEgo := 20, steeringAngleDeg := 3, steeringTorque := 0 },
    hands_on_level := 3, das_control_counter := 0 }

/-- Four ticks of strong driver torque with lateral control active. -/
def c5Inputs : List (CarControl × CarState) :=
  [(exCCon, exCStorque), (exCCon, exCStorque), (exCCon, exCStorque), (exCCon, exCStorque)]

/-- A controller state sitting at an odd (non-steering-rate) frame. -/
def oddState : CarControllerState :=
  { apply_angle_last := 0, angle_modifier := 0, driver_torque_x := 0, frame := 1 }

theorem abs_clip_le (x M : ℚ) (h : 0 ≤ M) : |clip x (-M) M| ≤ M := by
  unfold clip
  rw [abs_le]
  exact ⟨le_min (le_max_right _ _) (by linarith), min_le_right _ _⟩

theorem clip_eq_self (x lo hi : ℚ) (h1 : lo ≤ x) (h2 : x ≤ hi) : clip x lo hi = x := by
  unfold clip
  rw [max_eq_left h1, min_eq_left h2]

theorem abs_clip_sub_le (x lo hi c : ℚ) (h1 : lo ≤ c) (h2 : c ≤ hi) :
    |clip x lo hi - c| ≤ |x - c| := by
  unfold clip
  rcases le_total x lo with hx | hx
  · rw [max_eq_right hx, min_eq_left (h1.trans h2),
      abs_of_nonpos (by linarith), abs_of_nonpos (by linarith)]
    linarith
  · rw [max_eq_left hx]
    rcases le_total x hi with hy | hy
    · rw [min_eq_left hy]
    · rw [min_eq_right hy, abs_of_nonneg (by linarith), abs_of_nonneg (by linarith)]
      linarith

theorem limiter_inactive_repr (a l v s : ℚ) (limits : AngleSteeringLimits)
    (VM : VehicleModel) :
    apply_tesla_steer_angle_limits a l v s false limits VM
      = clip s (-limits.STEER_ANGLE_MAX) limits.STEER_ANGLE_MAX := rfl

theorem limiter_abs_le (a l v s : ℚ) (b : Bool) (limits : AngleSteeringLimits)
    (VM : VehicleModel) (h : 0 ≤ limits.STEER_ANGLE_MAX) :
    |apply_tesla_steer_angle_limits a l v s b limits VM| ≤ limits.STEER_ANGLE_MAX := by
  unfold apply_tesla_steer_angle_limits
  exact abs_clip_le _ _ h

theorem update_preserves_abs (cfg : CarControllerConfig) (st : CarControllerState)
    (CC : CarControl) (CS : CarState) (n : ℕ)
    (h : 0 ≤ cfg.ANGLE_LIMITS.STEER_ANGLE_MAX)
    (hst : |st.apply_angle_last| ≤ cfg.ANGLE_LIMITS.STEER_ANGLE_MAX) :
    |(update cfg st CC CS n).2.apply_angle_last| ≤ cfg.ANGLE_LIMITS.STEER_ANGLE_MAX := by
  by_cases h2 : st.frame % 2 = 0
  · simp only [update, h2, if_true]
    exact limiter_abs_le _ _ _ _ _ _ _ h
  · simp only [update, h2, if_false]
    exact hst

/-- C1: for every candidate angle, previous angle, raw speed, measured angle and
lateral-active flag, the steering angle limiter returns a value of magnitude at
most `limits.STEER_ANGLE_MAX`, and consequently `apply_angle_last` stays in
`[-STEER_ANGLE_MAX, STEER_ANGLE_MAX]` after every `update`, starting from its
initial value 0. -/
theorem steer_angle_limiter_bounded (cfg : CarControllerConfig)
    (h : 0 ≤ cfg.ANGLE_LIMITS.STEER_ANGLE_MAX) :
    (∀ a l v s b, |apply_tesla_steer_angle_limits a l v s b cfg.ANGLE_LIMITS cfg.VM|
        ≤ cfg.ANGLE_LIMITS.STEER_ANGLE_MAX) ∧
    (∀ inputs, |(run cfg initState inputs).apply_angle_last|
        ≤ cfg.ANGLE_LIMITS.STEER_ANGLE_MAX) := by
  constructor
  · intro a l v s b
    exact limiter_abs_le _ _ _ _ _ _ _ h
  · have key : ∀ (inputs : List (CarControl × CarState)) (st : CarControllerState),
        |st.apply_angle_last| ≤ cfg.ANGLE_LIMITS.STEER_ANGLE_MAX →
        |(run cfg st inputs).apply_angle_last| ≤ cfg.ANGLE_LIMITS.STEER_ANGLE_MAX := by
      intro inputs
      induction inputs with
      | nil => intro st hst; exact hst
      | cons p rest ih =>
        intro st hst
        exact ih _ (update_preserves_abs cfg st p.1 p.2 0 h hst)
    intro inputs
    refine key inputs initState ?_
    simpa [initState] using h

/-- C1 witness: the bound instantiated at a concrete configuration and inputs. -/
theorem steer_angle_limiter_bounded_witness :
    |apply_tesla_steer_angle_limits 50 0 20 0 true exCfg.ANGLE_LIMITS exCfg.VM|
      ≤ exCfg.ANGLE_LIMITS.STEER_ANGLE_MAX ∧
    |(run exCfg initState [(exCC, exCS)]).apply_angle_last|
      ≤ exCfg.ANGLE_LIMITS.STEER_ANGLE_MAX :=
  ⟨(steer_angle_limiter_bounded exCfg (by norm_num [exCfg])).1 50 0 20 0 true,
   (steer_angle_limiter_bounded exCfg (by norm_num [exCfg])).2 [(exCC, exCS)]⟩

/-- C3 counterexample: with lateral control inactive, a measured steering angle
of 400° and the production `STEER_ANGLE_MAX = 360`, the limiter outputs 360,
not the measured angle. -/
theorem inactive_tracking_counterexample :
    apply_tesla_steer_angle_limits 0 0 20 400 false ⟨360⟩ exVM = 360 ∧
    apply_tesla_steer_angle_limits 0 0 20 400 false ⟨360⟩ exVM ≠ 400 := by
  have e : (⟨360⟩ : AngleSteeringLimits).STEER_ANGLE_MAX = 360 := rfl
  have h1 : apply_tesla_steer_angle_limits 0 0 20 400 false ⟨360⟩ exVM = 360 := by
    rw [limiter_inactive_repr, e]
    unfold clip
    rw [show max (400 : ℚ) (-360) = 400 from max_eq_left (by norm_num),
      show min (400 : ℚ) 360 = 360 from min_eq_right (by norm_num)]
  exact ⟨h1, by rw [h1]; norm_num⟩

/-- C3 (amended): when the lateral-active flag is false, the limiter output is
the measured steering angle clamped to `[-STEER_ANGLE_MAX, STEER_ANGLE_MAX]`;
in particular it equals the measured angle exactly whenever the measured angle
is within that range, for every candidate angle, previous angle and speed. -/
theorem inactive_tracks_measured (a l v s : ℚ) (limits : AngleSteeringLimits)
    (VM : VehicleModel) :
    apply_tesla_steer_angle_limits a l v s false limits VM
      = clip s (-limits.STEER_ANGLE_MAX) limits.STEER_ANGLE_MAX ∧
    (|s| ≤ limits.STEER_ANGLE_MAX →
      apply_tesla_steer_angle_limits a l v s false limits VM = s) := by
  have hbase : apply_tesla_steer_angle_limits a l v s false limits VM
      = clip s (-limits.STEER_ANGLE_MAX) limits.STEER_ANGLE_MAX := rfl
  refine ⟨hbase, fun hs => ?_⟩
  rw [hbase]
  rw [abs_le] at hs
  exact clip_eq_self _ _ _ hs.1 hs.2

/-- C3 witness: the inactive override at concrete in-range inputs. -/
theorem inactive_tracks_measured_witness :
    apply_tesla_steer_angle_limits 25 0 20 3 false ⟨360⟩ exVM
      = clip 3 (-(360 : ℚ)) 360 ∧
    apply_tesla_steer_angle_limits 25 0 20 3 false ⟨360⟩ exVM = 3 :=
  ⟨(inactive_tracks_measured 25 0 20 3 ⟨360⟩ exVM).1,
   (inactive_tracks_measured 25 0 20 3 ⟨360⟩ exVM).2
     (by rw [abs_of_nonneg (by norm_num : (0 : ℚ) ≤ 3)]; norm_num)⟩

theorem clip_le_right (x lo hi : ℚ) : clip x lo hi ≤ hi := min_le_right _ _

theorem left_le_clip (x lo hi : ℚ) (h : lo ≤ hi) : lo ≤ clip x lo hi :=
  le_min (le_max_right _ _) h

theorem rate_limit_le (n l dn up : ℚ) : rate_limit n l dn up ≤ l + up :=
  clip_le_right _ _ _

theorem le_rate_limit (n l dn up : ℚ) (h : l + dn ≤ l + up) :
    l + dn ≤ rate_limit n l dn up :=
  left_le_clip _ _ _ h

theorem gmad20 : get_max_angle_delta 20 exVM = 17943/100000 := by
  have hmax : max (20 : ℚ) 1 = 20 := max_eq_left (by norm_num)
  simp only [get_max_angle_delta, exVM, hmax]
  norm_num [MAX_LATERAL_JERK, ACCELERATION_DUE_TO_GRAVITY, AVERAGE_ROAD_ROLL,
    DT_CTRL, STEER_STEP]

theorem gma20 : get_max_angle 20 exVM = 17943/2000 := by
  have hmax : max (20 : ℚ) 1 = 20 := max_eq_left (by norm_num)
  simp only [get_max_angle, exVM, hmax]
  norm_num [MAX_LATERAL_ACCEL, ISO_LATERAL_ACCEL, ACCELERATION_DUE_TO_GRAVITY,
    AVERAGE_ROAD_ROLL]

theorem limiter_active_repr (a l v s : ℚ) (limits : AngleSteeringLimits)
    (VM : VehicleModel) :
    apply_tesla_steer_angle_limits a l v s true limits VM
      = clip (clip (rate_limit a l (-(min (get_max_angle_delta v VM) MAX_ANGLE_RATE))
            (min (get_max_angle_delta v VM) MAX_ANGLE_RATE))
          (-(get_max_angle v VM)) (get_max_angle v VM))
        (-limits.STEER_ANGLE_MAX) limits.STEER_ANGLE_MAX := rfl

theorem limiter_active_rate_bound (a l v s : ℚ) (limits : AngleSteeringLimits)
    (VM : VehicleModel) (h0 : 0 ≤ get_max_angle_delta v VM)
    (hma : |l| ≤ get_max_angle v VM) (hM : |l| ≤ limits.STEER_ANGLE_MAX) :
    |apply_tesla_steer_angle_limits a l v s true limits VM - l|
      ≤ min (get_max_angle_delta v VM) MAX_ANGLE_RATE := by
  have hd : (0 : ℚ) ≤ min (get_max_angle_delta v VM) MAX_ANGLE_RATE :=
    le_min h0 (by norm_num [MAX_ANGLE_RATE])
  rw [abs_le] at hma hM
  rw [limiter_active_repr]
  set d := min (get_max_angle_delta v VM) MAX_ANGLE_RATE with hd_def
  set ma := get_max_angle v VM with hma_def
  have h1 : l + -d ≤ rate_limit a l (-d) d := le_rate_limit _ _ _ _ (by linarith)
  have h2 : rate_limit a l (-d) d ≤ l + d := rate_limit_le _ _ _ _
  have step1 : |rate_limit a l (-d) d - l| ≤ d := by
    rw [abs_le]; constructor <;> linarith
  have step2 : |clip (rate_limit a l (-d) d) (-ma) ma - l|
      ≤ |rate_limit a l (-d) d - l| :=
    abs_clip_sub_le _ _ _ _ (by linarith [hma.1]) hma.2
  have step3 : |clip (clip (rate_limit a l (-d) d) (-ma) ma)
      (-limits.STEER_ANGLE_MAX) limits.STEER_ANGLE_MAX - l|
      ≤ |clip (rate_limit a l (-d) d) (-ma) ma - l| :=
    abs_clip_sub_le _ _ _ _ (by linarith [hM.1]) hM.2
  linarith

theorem limiter_scenario (s : ℚ) (limits : AngleSteeringLimits) (VM : VehicleModel)
    (h0 : 0 ≤ get_max_angle_delta 20 VM)
    (hma : min (get_max_angle_delta 20 VM) MAX_ANGLE_RATE ≤ get_max_angle 20 VM)
    (hM : MAX_ANGLE_RATE ≤ limits.STEER_ANGLE_MAX) :
    apply_tesla_steer_angle_limits 50 0 20 s true limits VM
      = min (get_max_angle_delta 20 VM) MAX_ANGLE_RATE ∧
    apply_tesla_steer_angle_limits 50 0 20 s true limits VM ≠ 50 := by
  rw [limiter_active_repr]
  set d := min (get_max_angle_delta 20 VM) MAX_ANGLE_RATE with hd_def
  set ma := get_max_angle 20 VM with hma_def
  have hd : (0 : ℚ) ≤ d := le_min h0 (by norm_num [MAX_ANGLE_RATE])
  have hd10 : d ≤ 10 := by
    have := min_le_right (get_max_angle_delta 20 VM) MAX_ANGLE_RATE
    rw [← hd_def] at this
    simpa [MAX_ANGLE_RATE] using this
  have hMr : (10 : ℚ) ≤ limits.STEER_ANGLE_MAX := by
    simpa [MAX_ANGLE_RATE] using hM
  have h1 : rate_limit 50 0 (-d) d = d := by
    unfold rate_limit clip
    rw [max_eq_left (by linarith), min_eq_right (by linarith)]
    ring
  rw [h1]
  have h2 : clip d (-ma) ma = d := clip_eq_self _ _ _ (by linarith) hma
  rw [h2]
  have h3 : clip d (-limits.STEER_ANGLE_MAX) limits.STEER_ANGLE_MAX = d :=
    clip_eq_self _ _ _ (by linarith) (by linarith)
  rw [h3]
  exact ⟨rfl, by intro hc; rw [hc] at hd10; linarith⟩

/-- C2 counterexample: with lateral control inactive (speed 20, previous angle 0,
measured angle 100, production limits), the applied angle jumps by 100° in one
tick, exceeding `min(jerk-derived delta, MAX_ANGLE_RATE)`; the per-tick delta
bound does not hold for every input as the claim states. -/
theorem rate_bound_counterexample :
    ¬ (|apply_tesla_steer_angle_limits 0 0 20 100 false ⟨360⟩ exVM - 0|
        ≤ min (get_max_angle_delta 20 exVM) MAX_ANGLE_RATE) := by
  have h1 : apply_tesla_steer_angle_limits 0 0 20 100 false ⟨360⟩ exVM = 100 := by
    rw [limiter_inactive_repr]
    exact clip_eq_self _ _ _ (by norm_num) (by norm_num)
  rw [h1, gmad20, sub_zero, abs_of_nonneg (by norm_num : (0 : ℚ) ≤ 100)]
  have h2 : min ((17943 : ℚ)/100000) MAX_ANGLE_RATE = 17943/100000 :=
    min_eq_left (by norm_num [MAX_ANGLE_RATE])
  rw [h2]
  norm_num

/-- C2 (amended): whenever lateral control is active, the jerk-derived per-cycle
delta is nonnegative, and the previous applied angle already respects the
lateral-acceleration bound and the absolute maximum, the change in the applied
angle per limiter call is at most `min(jerk-derived delta, MAX_ANGLE_RATE)`;
and in the scenario speed 20, previous angle 0, active, candidate angle 50°,
the output equals the jerk/rate-limited step `min(delta, MAX_ANGLE_RATE)` and
is not 50°, provided that step is within the lateral-acceleration bound and
`MAX_ANGLE_RATE` is within the absolute maximum. -/
theorem steer_angle_rate_bound (limits : AngleSteeringLimits) (VM : VehicleModel) :
    (∀ a l v s, 0 ≤ get_max_angle_delta v VM → |l| ≤ get_max_angle v VM →
      |l| ≤ limits.STEER_ANGLE_MAX →
      |apply_tesla_steer_angle_limits a l v s true limits VM - l|
        ≤ min (get_max_angle_delta v VM) MAX_ANGLE_RATE) ∧
    (∀ s, 0 ≤ get_max_angle_delta 20 VM →
      min (get_max_angle_delta 20 VM) MAX_ANGLE_RATE ≤ get_max_angle 20 VM →
      MAX_ANGLE_RATE ≤ limits.STEER_ANGLE_MAX →
      apply_tesla_steer_angle_limits 50 0 20 s true limits VM
        = min (get_max_angle_delta 20 VM) MAX_ANGLE_RATE ∧
      apply_tesla_steer_angle_limits 50 0 20 s true limits VM ≠ 50) :=
  ⟨fun a l v s h0 hma hM => limiter_active_rate_bound a l v s limits VM h0 hma hM,
   fun s h0 hma hM => limiter_scenario s limits VM h0 hma hM⟩

/-- C2 witness: the rate bound and the 0°→50° scenario at speed 20 with a
concrete vehicle model and the production absolute limit. -/
theorem steer_angle_rate_bound_witness :
    |apply_tesla_steer_angle_limits 50 0 20 0 true ⟨360⟩ exVM - 0|
      ≤ min (get_max_angle_delta 20 exVM) MAX_ANGLE_RATE ∧
    apply_tesla_steer_angle_limits 50 0 20 0 true ⟨360⟩ exVM
      = min (get_max_angle_delta 20 exVM) MAX_ANGLE_RATE :=
  ⟨(steer_angle_rate_bound ⟨360⟩ exVM).1 50 0 20 0
      (by rw [gmad20]; norm_num) (by rw [gma20]; norm_num) (by norm_num),
   ((steer_angle_rate_bound ⟨360⟩ exVM).2 0
      (by rw [gmad20]; norm_num)
      (by rw [gmad20, gma20]; norm_num [MAX_ANGLE_RATE, min_def])
      (by norm_num [MAX_ANGLE_RATE])).1⟩

/-- C8: `update` is a deterministic pure function of the controller state and
the tick inputs: identical state and identical inputs give identical actuator
echo and identical outbound command sequence, for any wall-clock values. -/
theorem update_deterministic (cfg : CarControllerConfig)
    (st1 st2 : CarControllerState) (CC1 CC2 : CarControl) (CS1 CS2 : CarState)
    (n1 n2 : ℕ) (hst : st1 = st2) (hCC : CC1 = CC2) (hCS : CS1 = CS2) :
    update cfg st1 CC1 CS1 n1 = update cfg st2 CC2 CS2 n2 := by
  subst hst hCC hCS
  rfl

/-- C8 witness: determinism at a concrete state and input, across two distinct
wall-clock values. -/
theorem update_deterministic_witness :
    update exCfg initState exCC exCS 0 = update exCfg initState exCC exCS 1 :=
  update_deterministic exCfg initState initState exCC exCC exCS exCS 0 1 rfl rfl rfl

theorem update_sends_repr (cfg : CarControllerConfig) (st : CarControllerState)
    (CC : CarControl) (CS : CarState) (n : ℕ) :
    (update cfg st CC CS n).1.2
      = (if st.frame % 2 = 0 then
          [CanMsg.steeringControl ((update cfg st CC CS n).2.apply_angle_last)
            (CC.latActive && decide (CS.hands_on_level < 3))] else [])
        ++ (if st.frame % 10 = 0 then [CanMsg.steeringAllowed] else [])
        ++ (if cfg.openpilotLongitudinalControl then
              (if st.frame % 4 = 0 then
                [CanMsg.longitudinalCommand (if CC.cruiseControl.cancel then 13 else 4)
                  (clip CC.actuators.accel cfg.ACCEL_MIN cfg.ACCEL_MAX)
                  ((st.frame / 4) % 8) CS.out.vEgo CC.longActive] else [])
            else
              (if CC.cruiseControl.cancel then
                [CanMsg.longitudinalCommand 13 0 ((CS.das_control_counter + 1) % 8)
                  CS.out.vEgo false] else [])) := by
  by_cases h2 : st.frame % 2 = 0 <;> simp [update, h2]

/-- C4: in every execution of `update`, a steering command is in the outbound
list exactly when `frame % 2 = 0`, the steering-allowed heartbeat exactly when
`frame % 10 = 0`, and — when this system owns longitudinal control — a
longitudinal command exactly when `frame % 4 = 0`; no command kind is emitted
off its schedule. -/
theorem command_schedule_exact (cfg : CarControllerConfig) (st : CarControllerState)
    (CC : CarControl) (CS : CarState) (n : ℕ) :
    (((update cfg st CC CS n).1.2.any isSteeringMsg = true) ↔ st.frame % 2 = 0) ∧
    (((update cfg st CC CS n).1.2.any isAllowedMsg = true) ↔ st.frame % 10 = 0) ∧
    (cfg.openpilotLongitudinalControl = true →
      (((update cfg st CC CS n).1.2.any isLongMsg = true) ↔ st.frame % 4 = 0)) := by
  rw [update_sends_repr]
  by_cases h2 : st.frame % 2 = 0 <;> by_cases h10 : st.frame % 10 = 0 <;>
    by_cases h4 : st.frame % 4 = 0 <;>
    by_cases hop : cfg.openpilotLongitudinalControl = true <;>
    by_cases hc : CC.cruiseControl.cancel = true <;>
    simp [h2, h10, h4, hop, hc, isSteeringMsg, isAllowedMsg, isLongMsg, List.any_append]

/-- C4 witness: at frame 0 of an owned-longitudinal configuration a
longitudinal command is emitted. -/
theorem command_schedule_exact_witness :
    (update exCfg initState exCC exCS 0).1.2.any isLongMsg = true :=
  ((command_schedule_exact exCfg initState exCC exCS 0).2.2 rfl).mpr rfl

/-- C5 counterexample: starting from the initial state, four ticks of strong
driver torque with lateral control active raise `angle_modifier` to 10; the
next steering-rate update, with lateral control inactive, resets it to 0 — a
change of 10 degrees between consecutive steering-rate updates, exceeding 5. -/
theorem angle_modifier_jump_counterexample :
    (run exCfg2 initState c5Inputs).angle_modifier = 10 ∧
    (run exCfg2 initState c5Inputs).frame % 2 = 0 ∧
    (update exCfg2 (run exCfg2 initState c5Inputs) exCCoff exCStorque 0).2.angle_modifier
      = 0 ∧
    ¬ (|(0 : ℚ) - 10| ≤ 5) := by
  have hrun : run exCfg2 initState c5Inputs
      = ⟨10, 10, 85440/28561, 4⟩ := by
    norm_num [run, c5Inputs, update, initState, exCfg2, exVM2, exCCon, exCStorque,
      filtered_driver_torque, firstOrderFilterUpdate, driver_torque_deadband, sign,
      angle_from_driver_torque, apply_tesla_steer_angle_limits, rate_limit, clip,
      get_max_angle_delta, get_max_angle, MAX_ANGLE_RATE, MAX_LATERAL_JERK,
      MAX_LATERAL_ACCEL, ISO_LATERAL_ACCEL, ACCELERATION_DUE_TO_GRAVITY,
      AVERAGE_ROAD_ROLL, DT_CTRL, STEER_STEP, CarControllerState.mk.injEq,
      max_def, min_def, abs]
  refine ⟨by rw [hrun], by rw [hrun]; rfl, ?_, ?_⟩
  · rw [hrun]
    simp [update, exCCoff]
  · rw [show (0 : ℚ) - 10 = -10 by norm_num, abs_neg,
      abs_of_nonneg (by norm_num : (0 : ℚ) ≤ 10)]
    norm_num

/-- C5 (amended): on a steering-rate update (`frame % 2 = 0`) with lateral
control requested, `angle_modifier` changes by at most 5 degrees in magnitude;
on a steering-rate update with lateral control not requested it becomes exactly
0 (in particular on the first such update after deactivation — that reset
itself may exceed 5 degrees). -/
theorem angle_modifier_step_bound (cfg : CarControllerConfig) (st : CarControllerState)
    (CC : CarControl) (CS : CarState) (n : ℕ) (h2 : st.frame % 2 = 0) :
    (CC.latActive = true →
      |(update cfg st CC CS n).2.angle_modifier - st.angle_modifier| ≤ 5) ∧
    (CC.latActive = false → (update cfg st CC CS n).2.angle_modifier = 0) := by
  constructor
  · intro hact
    have hrepr : (update cfg st CC CS n).2.angle_modifier
        = clip (angle_from_driver_torque cfg.VM
            (filtered_driver_torque st.driver_torque_x CS.out.steeringTorque)
            CS.out.vEgoRaw)
          (st.angle_modifier - 5) (st.angle_modifier + 5) := by
      simp [update, h2, hact]
    rw [hrepr]
    have hlo : st.angle_modifier - 5
        ≤ clip (angle_from_driver_torque cfg.VM
            (filtered_driver_torque st.driver_torque_x CS.out.steeringTorque)
            CS.out.vEgoRaw)
          (st.angle_modifier - 5) (st.angle_modifier + 5) :=
      left_le_clip _ _ _ (by linarith)
    have hhi : clip (angle_from_driver_torque cfg.VM
          (filtered_driver_torque st.driver_torque_x CS.out.steeringTorque)
          CS.out.vEgoRaw)
        (st.angle_modifier - 5) (st.angle_modifier + 5) ≤ st.angle_modifier + 5 :=
      clip_le_right _ _ _
    rw [abs_le]
    constructor <;> linarith
  · intro hinact
    simp [update, h2, hinact]

/-- C5 witness: the modifier step bound and the inactive reset at concrete
inputs on a steering-rate frame. -/
theorem angle_modifier_step_bound_witness :
    |(update exCfg2 initState exCCon exCStorque 0).2.angle_modifier
        - initState.angle_modifier| ≤ 5 ∧
    (update exCfg2 initState exCCoff exCStorque 0).2.angle_modifier = 0 :=
  ⟨(angle_modifier_step_bound exCfg2 initState exCCon exCStorque 0 rfl).1 rfl,
   (angle_modifier_step_bound exCfg2 initState exCCoff exCStorque 0 rfl).2 rfl⟩

/-- C6: every emitted longitudinal command carries a counter in `[0,7]`; in
owned mode the counter is `(frame / 4) % 8`; in unowned mode any emitted
longitudinal command has state 13 (CANCEL), acceleration 0, counter
`(observed counter + 1) % 8` and longitudinal-inactive, and with a pending
cancel request such a command is indeed emitted. -/
theorem longitudinal_counter_correct (cfg : CarControllerConfig)
    (st : CarControllerState) (CC : CarControl) (CS : CarState) (n : ℕ) :
    (∀ state accel cntr v b,
      CanMsg.longitudinalCommand state accel cntr v b ∈ (update cfg st CC CS n).1.2 →
      cntr ≤ 7 ∧
      (cfg.openpilotLongitudinalControl = true → cntr = (st.frame / 4) % 8) ∧
      (cfg.openpilotLongitudinalControl = false →
        state = 13 ∧ accel = 0 ∧ cntr = (CS.das_control_counter + 1) % 8 ∧ b = false)) ∧
    (cfg.openpilotLongitudinalControl = false → CC.cruiseControl.cancel = true →
      CanMsg.longitudinalCommand 13 0 ((CS.das_control_counter + 1) % 8) CS.out.vEgo false
        ∈ (update cfg st CC CS n).1.2) := by
  constructor
  · intro state accel cntr v b hmem
    rw [update_sends_repr] at hmem
    by_cases h2 : st.frame % 2 = 0 <;> by_cases h10 : st.frame % 10 = 0 <;>
      by_cases h4 : st.frame % 4 = 0 <;>
      by_cases hop : cfg.openpilotLongitudinalControl = true <;>
      by_cases hc : CC.cruiseControl.cancel = true <;>
      simp [h2, h10, h4, hop, hc] at hmem <;>
      obtain ⟨hs, ha, hcn, hv, hb⟩ := hmem <;>
      subst hcn <;>
      refine ⟨by omega, ?_, ?_⟩ <;> simp [hop, hs, ha, hb]
  · intro hop hc
    rw [update_sends_repr]
    by_cases h2 : st.frame % 2 = 0 <;> by_cases h10 : st.frame % 10 = 0 <;>
      simp [h2, h10, hop, hc]

/-- C6 witness: unowned mode with a pending cancel and observed external
counter 6 emits counter 7, state CANCEL (13), acceleration 0,
longitudinal-inactive. -/
theorem longitudinal_counter_correct_witness :
    CanMsg.longitudinalCommand 13 0 7 20 false
      ∈ (update exCfgU initState exCCcancel exCS 0).1.2 :=
  (longitudinal_counter_correct exCfgU initState exCCcancel exCS 0).2 rfl rfl

/-- C7: in owned mode, on each emitting frame (`frame % 4 = 0`) the emitted
longitudinal command has state 13 (CANCEL) if a cancel request is pending and
4 (ACTIVE) otherwise, and carries the desired acceleration clamped to
`[ACCEL_MIN, ACCEL_MAX]`; in particular desired acceleration 5 with
`ACCEL_MAX = 2` is emitted as 2. -/
theorem owned_longitudinal_command (cfg : CarControllerConfig)
    (st : CarControllerState) (CC : CarControl) (CS : CarState) (n : ℕ)
    (hop : cfg.openpilotLongitudinalControl = true) (h4 : st.frame % 4 = 0) :
    (CanMsg.longitudinalCommand (if CC.cruiseControl.cancel then 13 else 4)
        (clip CC.actuators.accel cfg.ACCEL_MIN cfg.ACCEL_MAX)
        ((st.frame / 4) % 8) CS.out.vEgo CC.longActive ∈ (update cfg st CC CS n).1.2) ∧
    (cfg.ACCEL_MAX = 2 → CC.actuators.accel = 5 →
      CanMsg.longitudinalCommand (if CC.cruiseControl.cancel then 13 else 4) 2
        ((st.frame / 4) % 8) CS.out.vEgo CC.longActive ∈ (update cfg st CC CS n).1.2) := by
  have hmem : CanMsg.longitudinalCommand (if CC.cruiseControl.cancel then 13 else 4)
      (clip CC.actuators.accel cfg.ACCEL_MIN cfg.ACCEL_MAX)
      ((st.frame / 4) % 8) CS.out.vEgo CC.longActive ∈ (update cfg st CC CS n).1.2 := by
    rw [update_sends_repr]
    by_cases h2 : st.frame % 2 = 0 <;> by_cases h10 : st.frame % 10 = 0 <;>
      simp [h2, h10, hop, h4]
  refine ⟨hmem, fun hmax hacc => ?_⟩
  have hclip : clip CC.actuators.accel cfg.ACCEL_MIN cfg.ACCEL_MAX = 2 := by
    rw [hacc, hmax]
    unfold clip
    exact min_eq_right (le_trans (by norm_num) (le_max_left 5 cfg.ACCEL_MIN))
  rw [← hclip]
  exact hmem

/-- C7 witness: owned mode, frame 0, no cancel, desired acceleration 5 with
`ACCEL_MAX = 2` emits state 4 (ACTIVE) with acceleration clamped to 2. -/
theorem owned_longitudinal_command_witness :
    CanMsg.longitudinalCommand 4 2 0 20 true
      ∈ (update exCfg initState exCCaccel exCS 0).1.2 :=
  (owned_longitudinal_command exCfg initState exCCaccel exCS 0 rfl rfl).2 rfl rfl

/-- C9: when lateral control is requested but the hands-on-level is 3 or more,
the limiter is called inactive, so the new applied angle is the measured
steering angle (when it is within the absolute limit) and the steering command
is sent with the active flag false; the `angle_modifier` update, gated on the
requested flag alone, still performs its torque-driven update. -/
theorem hands_on_override (cfg : CarControllerConfig) (st : CarControllerState)
    (CC : CarControl) (CS : CarState) (n : ℕ)
    (hact : CC.latActive = true) (hhands : 3 ≤ CS.hands_on_level)
    (h2 : st.frame % 2 = 0)
    (hs : |CS.out.steeringAngleDeg| ≤ cfg.ANGLE_LIMITS.STEER_ANGLE_MAX) :
    (update cfg st CC CS n).2.apply_angle_last = CS.out.steeringAngleDeg ∧
    CanMsg.steeringControl CS.out.steeringAngleDeg false ∈ (update cfg st CC CS n).1.2 ∧
    (update cfg st CC CS n).2.angle_modifier
      = clip (angle_from_driver_torque cfg.VM
          (filtered_driver_torque st.driver_torque_x CS.out.steeringTorque)
          CS.out.vEgoRaw)
        (st.angle_modifier - 5) (st.angle_modifier + 5) := by
  have hlat : (CC.latActive && decide (CS.hands_on_level < 3)) = false := by
    simp [hact]
    omega
  rw [abs_le] at hs
  have happ : (update cfg st CC CS n).2.apply_angle_last = CS.out.steeringAngleDeg := by
    simp only [update, h2, if_true, hlat]
    rw [limiter_inactive_repr]
    exact clip_eq_self _ _ _ hs.1 hs.2
  refine ⟨happ, ?_, ?_⟩
  · rw [update_sends_repr, hlat, happ]
    simp [h2]
  · simp [update, h2, hact]

/-- C9 witness: requested lateral control with hands-on-level 3 at a concrete
state — the applied angle becomes the measured 3° and the steering command is
sent inactive. -/
theorem hands_on_override_witness :
    (update exCfg initState exCCon exCShands 0).2.apply_angle_last = 3 ∧
    CanMsg.steeringControl 3 false ∈ (update exCfg initState exCCon exCShands 0).1.2 :=
  ⟨(hands_on_override exCfg initState exCCon exCShands 0 rfl (by norm_num [exCShands]) rfl
      (by rw [show exCShands.out.steeringAngleDeg = 3 from rfl,
            abs_of_nonneg (by norm_num : (0 : ℚ) ≤ 3)]
          norm_num [exCfg])).1,
   (hands_on_override exCfg initState exCCon exCShands 0 rfl (by norm_num [exCShands]) rfl
      (by rw [show exCShands.out.steeringAngleDeg = 3 from rfl,
            abs_of_nonneg (by norm_num : (0 : ℚ) ≤ 3)]
          norm_num [exCfg])).2.1⟩

/-- C10: `update` returns the input actuators with only `steeringAngleDeg`
replaced by the current `apply_angle_last` (other fields unchanged); on frames
with `frame % 2 ≠ 0` the limiter is not run and the applied angle is carried
over unchanged; the initial applied angle is 0. -/
theorem actuator_echo (cfg : CarControllerConfig) (st : CarControllerState)
    (CC : CarControl) (CS : CarState) (n : ℕ) :
    ((update cfg st CC CS n).1.1
      = { steeringAngleDeg := (update cfg st CC CS n).2.apply_angle_last,
          accel := CC.actuators.accel }) ∧
    (¬ st.frame % 2 = 0 →
      (update cfg st CC CS n).2.apply_angle_last = st.apply_angle_last) ∧
    initState.apply_angle_last = 0 := by
  refine ⟨rfl, fun h2 => ?_, rfl⟩
  simp [update, h2]

/-- C10 witness: at an odd frame the applied angle is carried over unchanged. -/
theorem actuator_echo_witness :
    (update exCfg oddState exCC exCS 0).2.apply_angle_last = oddState.apply_angle_last :=
  (actuator_echo exCfg oddState exCC exCS 0).2.1 (by norm_num [oddState])

end TeslaCC
